import Mathlib

/-!
Shallow embedding of the antares7-1 simulation dashboard:
the job-polling/state-reconciliation loop (SimulationDashboard in the
unnamed dashboard module), the Mol* trajectory viewer frame navigation
(MolstarPlayer.jsx) and the PCA plot click/highlight logic (PCAPlot.jsx).
Network requests are modelled as explicit inputs (a `Fetched` value per
completion) and emitted side requests as lists of request identifiers.
-/

namespace Antares

/-- Job status strings used by the dashboard (pending/running/completed/failed/cancelled). -/
inductive Status where
  | pending
  | running
  | completed
  | failed
  | cancelled
deriving DecidableEq

/-- One PCA data point as consumed by PCAPlot (frame, pc1..pc3, time, optional cluster).
Principal components and time are modelled over Int (their exact numeric values play no
role in the claims). Time is kept in tenths of a nanosecond so it stays integral. -/
structure PCAPoint where
  frame : Nat
  pc1 : Int
  pc2 : Int
  pc3 : Int
  timeTenthsNs : Int
  cluster : Option Nat
deriving DecidableEq

/-- SimulationResults as described by the dashboard's JSDoc typedef:
molecules, pcaData, trajectoryPath, metrics. -/
structure ResultSet where
  molecules : List String
  pcaData : List PCAPoint
  trajectoryPath : String
  metrics : List (String × String)
deriving DecidableEq

/-- PipelineJob as described by the dashboard's JSDoc typedef. `results` models the
optional results reference carried by a server snapshot (the dashboard only tests
its truthiness). -/
structure Job where
  id : String
  name : String
  type : String
  status : Status
  progress : Nat
  startTime : Nat
  currentStep : Nat
  results : Option ResultSet
deriving DecidableEq

/-- Transient new-pipeline form state (pipelineConfig in the dashboard). -/
structure PipelineConfig where
  type : String
  name : String
  target_molecule : String
  target_protein : String
  parameters : List (String × String)
deriving DecidableEq

/-- The reset value the form is returned to after a successful submission, which is
also its initial value. -/
def defaultPipelineConfig : PipelineConfig :=
  { type := "full_pipeline"
    name := ""
    target_molecule := ""
    target_protein := ""
    parameters := [] }

/-- The dashboard shell's state: useState hooks of SimulationDashboard. -/
structure DashState where
  jobs : List Job
  selectedJob : Option Job
  results : Option ResultSet
  isPolling : Bool
  activeTab : String
  currentFrame : Nat
  showNewPipeline : Bool
  pipelineConfig : PipelineConfig
deriving DecidableEq

/-- Initial dashboard state (the useState initializers). -/
def initState : DashState :=
  { jobs := []
    selectedJob := none
    results := none
    isPolling := false
    activeTab := "overview"
    currentFrame := 0
    showNewPipeline := false
    pipelineConfig := defaultPipelineConfig }

/-- Outcome of one fetch: `ok` for a successful response with parsed JSON body,
`httpError` for a non-ok HTTP response, `networkError` for a thrown fetch error. -/
inductive Fetched (α : Type) where
  | ok (data : α)
  | httpError
  | networkError
deriving DecidableEq

/-- The loadJobs completion handler. Mirrors the source: on a successful response the
job list is replaced; if a job is selected and the new list contains a matching id,
the selected job is replaced by the matching entry, and when that entry's status is
completed and it carries a results reference a results fetch for its id is issued
(returned as the list of job ids fetched). On a non-ok response or a thrown error
nothing happens. -/
def loadJobs (st : DashState) (resp : Fetched (List Job)) : DashState × List String :=
  match resp with
  | Fetched.ok jobsData =>
      let st1 := { st with jobs := jobsData }
      match st.selectedJob with
      | some sel =>
          match jobsData.find? (fun j => j.id == sel.id) with
          | some updated =>
              let st2 := { st1 with selectedJob := some updated }
              if updated.status == Status.completed && updated.results.isSome then
                (st2, [updated.id])
              else
                (st2, [])
          | none => (st1, [])
      | none => (st1, [])
  | Fetched.httpError => (st, [])
  | Fetched.networkError => (st, [])

/-- The loadResults completion handler: on a successful response the fetched result
set replaces the dashboard's results state; the jobId the response belongs to is not
compared against the current selection. Errors leave the state unchanged. -/
def loadResults (st : DashState) (jobId : String) (resp : Fetched ResultSet) :
    DashState :=
  match resp with
  | Fetched.ok resultsData => { st with results := some resultsData }
  | Fetched.httpError => st
  | Fetched.networkError => st

/-- Request identifier for the start-pipeline POST. -/
def startPipelineRequest : String := "POST /api/v1/design/start-pipeline"

/-- The startPipeline handler: always issues the POST; on a successful response the
created job is prepended, selected, the modal closes, the form resets and the
polling-requested flag is set. On failure only the request was issued. -/
def startPipeline (st : DashState) (resp : Fetched Job) : DashState × List String :=
  match resp with
  | Fetched.ok newJob =>
      ({ st with
          jobs := newJob :: st.jobs
          selectedJob := some newJob
          showNewPipeline := false
          pipelineConfig := defaultPipelineConfig
          isPolling := true }, [startPipelineRequest])
  | Fetched.httpError => (st, [startPipelineRequest])
  | Fetched.networkError => (st, [startPipelineRequest])

/-- The new-pipeline form's submit button is disabled exactly when the name or the
target molecule is empty (JS truthiness of the strings). -/
def submitDisabled (cfg : PipelineConfig) : Bool :=
  cfg.name == "" || cfg.target_molecule == ""

/-- Clicking the form's submit button: a disabled button fires no handler, so an
invalid config produces no state change and no request; otherwise startPipeline runs. -/
def submitClick (st : DashState) (resp : Fetched Job) : DashState × List String :=
  if submitDisabled st.pipelineConfig then (st, [])
  else startPipeline st resp

/-- The polling useEffect's activation condition: an interval is scheduled iff
isPolling is set or some job has status pending or running. -/
def pollingActive (st : DashState) : Bool :=
  st.isPolling ||
    st.jobs.any (fun job => job.status == Status.pending || job.status == Status.running)

/-- One poll tick (a loadJobs completion) followed by re-evaluation of the polling
effect: returns the new state and whether the interval remains scheduled. -/
def pollStep (st : DashState) (resp : Fetched (List Job)) : DashState × Bool :=
  let st1 := (loadJobs st resp).1
  (st1, pollingActive st1)

/-- A run of poll ticks: the sequence of (state, interval-scheduled) evaluation points
produced by feeding the given responses one per tick. -/
def pollRun (st : DashState) : List (Fetched (List Job)) → List (DashState × Bool)
  | [] => []
  | r :: rs =>
      let p := pollStep st r
      p :: pollRun p.1 rs

/-- Clicking a job card in the jobs list: setSelectedJob(job), nothing else. -/
def selectJob (st : DashState) (job : Job) : DashState :=
  { st with selectedJob := some job }

/-- A Plotly click event as seen by PCAPlot.handlePointClick: the clicked points,
each carrying its customdata frame (customdata is built as points.map(p => p.frame)). -/
structure ClickEvent where
  points : List PCAPoint
deriving DecidableEq

/-- PCAPlot.handlePointClick: takes the first clicked point's customdata (its frame)
and reports it; with no points nothing is reported. -/
def handlePointClick (ev : ClickEvent) : Option Nat :=
  match ev.points with
  | [] => none
  | p :: _ => some p.frame

/-- The dashboard's handlePCAPointClick: setCurrentFrame(frame). -/
def handlePCAPointClick (st : DashState) (frame : Nat) : DashState :=
  { st with currentFrame := frame }

/-- The wiring of a plot click through onPointClick into the dashboard cursor. -/
def onPlotClick (st : DashState) (ev : ClickEvent) : DashState :=
  match handlePointClick ev with
  | some frame => handlePCAPointClick st frame
  | none => st

/-- The points PCAPlot highlights (marker size 12 / white outline): exactly those
whose frame equals the currentFrame prop. -/
def highlighted (pcaData : List PCAPoint) (currentFrame : Nat) : List PCAPoint :=
  pcaData.filter (fun p => p.frame == currentFrame)

/-- The PCA data the visualization tab passes to PCAPlot: results?.pcaData || []. -/
def vizPcaData (st : DashState) : List PCAPoint :=
  match st.results with
  | some r => r.pcaData
  | none => []

/-- MolstarPlayer's frameInfo state (current frame, total frames, elapsed time in
tenths of a nanosecond: the source stores frameNumber * 0.1 ns). -/
structure FrameInfo where
  current : Nat
  total : Nat
  timeTenthsNs : Nat
deriving DecidableEq

/-- MolstarPlayer's state relevant to frame navigation: whether the plugin is
initialized, whether a trajectory object is present in the hierarchy, whether
playback is running, and the frameInfo. -/
structure ViewerState where
  hasPlugin : Bool
  hasTrajectory : Bool
  isPlaying : Bool
  frameInfo : FrameInfo
deriving DecidableEq

/-- MolstarPlayer.goToFrame: returns early (no state change, no notification) when
the plugin is missing or frameNumber is outside [0, total); otherwise, when a
trajectory is present, sets the current frame and time and notifies onFrameChange
with the frame. The returned Option Int is the onFrameChange notification. -/
def goToFrame (vs : ViewerState) (frameNumber : Int) : ViewerState × Option Int :=
  if vs.hasPlugin = false ∨ frameNumber < 0 ∨ (vs.frameInfo.total : Int) ≤ frameNumber then
    (vs, none)
  else if vs.hasTrajectory then
    ({ vs with frameInfo :=
        { current := frameNumber.toNat
          total := vs.frameInfo.total
          timeTenthsNs := frameNumber.toNat } },
     some frameNumber)
  else
    (vs, none)

/-- MolstarPlayer's currentFrame useEffect: when the prop differs from the internal
frame and playback is not running, goToFrame(currentFrame) is invoked. -/
def syncViewerFrame (vs : ViewerState) (currentFrame : Nat) : ViewerState × Option Int :=
  if currentFrame ≠ vs.frameInfo.current ∧ vs.isPlaying = false then
    goToFrame vs (currentFrame : Int)
  else
    (vs, none)

/-- Spec-following frame setter, for comparison with goToFrame: clamps n to
[0, totalFrames-1] when totalFrames is known (positive), else accepts n as-is. -/
def setFrameSpec (vs : ViewerState) (n : Int) : ViewerState :=
  if 0 < vs.frameInfo.total then
    { vs with frameInfo :=
        { current := (min (max n 0) ((vs.frameInfo.total : Int) - 1)).toNat
          total := vs.frameInfo.total
          timeTenthsNs := vs.frameInfo.timeTenthsNs } }
  else
    { vs with frameInfo :=
        { current := n.toNat
          total := vs.frameInfo.total
          timeTenthsNs := vs.frameInfo.timeTenthsNs } }

/-! Concrete fixtures used by counterexamples and witnesses. -/

/-- A small result set carried by a completed job snapshot. -/
def resultsA : ResultSet :=
  { molecules := []
    pcaData := []
    trajectoryPath := "traj.dcd"
    metrics := [] }

/-- Job "a" while still running. -/
def jobARunning : Job :=
  { id := "a"
    name := "A"
    type := "md_simulation"
    status := Status.running
    progress := 40
    startTime := 0
    currentStep := 1
    results := none }

/-- Job "a" after completion, carrying a results reference. -/
def jobACompleted : Job :=
  { id := "a"
    name := "A"
    type := "md_simulation"
    status := Status.completed
    progress := 100
    startTime := 0
    currentStep := 4
    results := some resultsA }

/-- Job "b", a different job. -/
def jobB : Job :=
  { id := "b"
    name := "B"
    type := "docking"
    status := Status.running
    progress := 10
    startTime := 0
    currentStep := 0
    results := none }

/-- Dashboard with job "a" running and selected. -/
def st0C1 : DashState :=
  { initState with jobs := [jobARunning], selectedJob := some jobARunning }

/-- Dashboard state after the first poll tick delivered the completed snapshot. -/
def st1C1 : DashState := (loadJobs st0C1 (Fetched.ok [jobACompleted])).1

/-- Claim C1 counterexample: with job "a" selected, the first successful poll delivering
the completed snapshot issues a results fetch for "a" (the transition tick), the selected
job's status is then completed, yet a second successful poll delivering the same completed
snapshot issues a results fetch for "a" again — the fetch recurs on every tick where the
status remains completed and a results reference is present, not once per transition. -/
theorem c1_counterexample :
    (loadJobs st0C1 (Fetched.ok [jobACompleted])).2 = ["a"] ∧
    st1C1.selectedJob = some jobACompleted ∧
    (loadJobs st1C1 (Fetched.ok [jobACompleted])).2 = ["a"] := by
  decide

/-- Claim C1 (amended): on every successful fetchJobs poll while a job is selected and the
new list contains a matching entry, a results fetch for that entry is issued precisely when
the entry's status is completed and it carries a results reference — on every such poll
tick, including ticks where the status was already completed, not once per transition. -/
theorem c1_fetch_every_completed_tick (st : DashState) (jobsData : List Job)
    (sel upd : Job)
    (hsel : st.selectedJob = some sel)
    (hupd : jobsData.find? (fun j => j.id == sel.id) = some upd) :
    (loadJobs st (Fetched.ok jobsData)).2 =
      if upd.status == Status.completed && upd.results.isSome then [upd.id] else [] := by
  simp only [loadJobs, hsel, hupd]
  by_cases h : (upd.status == Status.completed && upd.results.isSome) = true
  · simp [h]
  · simp [h]

/-- Claim C1 witness: the amended theorem applied on the tick after the transition. -/
theorem c1_witness :
    st1C1.selectedJob = some jobACompleted ∧
    [jobACompleted].find? (fun j => j.id == jobACompleted.id) = some jobACompleted ∧
    (loadJobs st1C1 (Fetched.ok [jobACompleted])).2 =
      (if jobACompleted.status == Status.completed && jobACompleted.results.isSome then
        [jobACompleted.id] else []) :=
  ⟨by decide, by decide,
    c1_fetch_every_completed_tick st1C1 [jobACompleted] jobACompleted jobACompleted
      (by decide) (by decide)⟩

/-- Viewer with a loaded 3-frame trajectory at frame 0. -/
def vs3 : ViewerState :=
  { hasPlugin := true
    hasTrajectory := true
    isPlaying := false
    frameInfo := { current := 0, total := 3, timeTenthsNs := 0 } }

/-- Claim C2 counterexample: with 3 frames loaded and the cursor at 0, goToFrame 5 leaves
the cursor at 0 and notifies nobody, while clamping into [0, total-1] would move it to 2:
out-of-range frames are rejected (no-op), not clamped. -/
theorem c2_counterexample :
    (goToFrame vs3 5).1.frameInfo.current = 0 ∧
    (goToFrame vs3 5).2 = none ∧
    (setFrameSpec vs3 5).frameInfo.current = 2 ∧
    (goToFrame vs3 5).1.frameInfo.current ≠ (setFrameSpec vs3 5).frameInfo.current := by
  decide

/-- Claim C2 (amended): calling goToFrame with n outside [0, total-1] is a no-op (the call
returns without changing any state and without notifying) rather than clamping or throwing;
moreover after any goToFrame call the cursor either is unchanged or holds an in-range value,
so it never moves to a value for which no corresponding frame exists. -/
theorem c2_out_of_range_noop (vs : ViewerState) (n : Int)
    (h : n < 0 ∨ (vs.frameInfo.total : Int) ≤ n) :
    goToFrame vs n = (vs, none) ∧
    ∀ m : Int, (goToFrame vs m).1.frameInfo.current = vs.frameInfo.current ∨
      (goToFrame vs m).1.frameInfo.current < vs.frameInfo.total := by
  constructor
  · unfold goToFrame
    rcases h with h | h
    · rw [if_pos (Or.inr (Or.inl h))]
    · rw [if_pos (Or.inr (Or.inr h))]
  · intro m
    unfold goToFrame
    split
    · left; rfl
    · rename_i hguard
      split
      · right
        simp only []
        omega
      · left; rfl

/-- Claim C2 witness: the amended theorem applied to the 3-frame viewer with n = 5. -/
theorem c2_witness :
    ((5 : Int) < 0 ∨ ((vs3.frameInfo.total : Int) ≤ 5)) ∧
    (goToFrame vs3 5 = (vs3, none) ∧
      ∀ m : Int, (goToFrame vs3 m).1.frameInfo.current = vs3.frameInfo.current ∨
        (goToFrame vs3 m).1.frameInfo.current < vs3.frameInfo.total) :=
  ⟨Or.inr (by decide), c2_out_of_range_noop vs3 5 (Or.inr (by decide))⟩

/-- Claim C3: a PipelineConfig with empty name or empty target molecule disables the
submit button, so submitting issues no HTTP request and leaves the whole dashboard
state (in particular the job list) unchanged, whatever response the network would
have produced. -/
theorem c3_invalid_no_request (st : DashState) (resp : Fetched Job)
    (h : st.pipelineConfig.name = "" ∨ st.pipelineConfig.target_molecule = "") :
    submitClick st resp = (st, []) := by
  unfold submitClick submitDisabled
  rcases h with h | h <;> simp [h]

/-- Dashboard whose form has an empty name but a filled-in molecule. -/
def stC3 : DashState :=
  { initState with
      pipelineConfig :=
        { defaultPipelineConfig with name := "", target_molecule := "CCO" } }

/-- Claim C3 witness: submitting the empty-name config issues no request and adds no job. -/
theorem c3_witness :
    (stC3.pipelineConfig.name = "" ∨ stC3.pipelineConfig.target_molecule = "") ∧
    submitClick stC3 (Fetched.ok jobB) = (stC3, []) :=
  ⟨Or.inl rfl, c3_invalid_no_request stC3 (Fetched.ok jobB) (Or.inl rfl)⟩

/-- Dashboard with job "b" selected and no results loaded, while a results fetch for
job "a" is still in flight. -/
def stC4 : DashState :=
  { initState with jobs := [jobB], selectedJob := some jobB, results := none }

/-- Claim C4 counterexample: with job "b" selected, a results response for job "a"
arriving late is not discarded: it overwrites the displayed result set. -/
theorem c4_counterexample :
    stC4.selectedJob = some jobB ∧
    jobB.id ≠ "a" ∧
    (loadResults stC4 "a" (Fetched.ok resultsA)).results = some resultsA ∧
    (loadResults stC4 "a" (Fetched.ok resultsA)).results ≠ stC4.results := by
  decide

/-- Claim C4 (amended): the results-fetch completion handler applies the fetched
ResultSet unconditionally — the job id the response belongs to is never compared
against the current selection, so stale responses are not discarded. -/
theorem c4_apply_unconditional (st : DashState) (jobId : String) (rs : ResultSet) :
    loadResults st jobId (Fetched.ok rs) = { st with results := some rs } := rfl

/-- Helper: every evaluation point recorded by pollRun carries exactly the polling
effect's activation value for its state. -/
theorem pollRun_snd_eq (st : DashState) (resps : List (Fetched (List Job)))
    (p : DashState × Bool) (hp : p ∈ pollRun st resps) :
    p.2 = pollingActive p.1 := by
  induction resps generalizing st with
  | nil => cases hp
  | cons r rs ih =>
      simp only [pollRun, List.mem_cons] at hp
      rcases hp with hp | hp
      · subst hp; rfl
      · exact ih _ hp

/-- Claim C5: at every evaluation point of a poll run, the interval is scheduled iff
some job in the current list has status pending or running or the polling-requested
flag is set; in particular it is unscheduled on the first tick where this predicate
fails. -/
theorem c5_polling_iff (st : DashState) (resps : List (Fetched (List Job)))
    (p : DashState × Bool) (hp : p ∈ pollRun st resps) :
    p.2 = true ↔
      ((∃ j ∈ p.1.jobs, j.status = Status.pending ∨ j.status = Status.running) ∨
        p.1.isPolling = true) := by
  rw [pollRun_snd_eq st resps p hp]
  simp only [pollingActive, Bool.or_eq_true, List.any_eq_true, Bool.or_eq_true,
    beq_iff_eq]
  exact or_comm

/-- Claim C5 witness: the iff holds at the evaluation point after one tick that
delivers a terminal snapshot (and there the interval is indeed unscheduled). -/
theorem c5_witness :
    pollStep st0C1 (Fetched.ok [jobACompleted]) ∈
      pollRun st0C1 [Fetched.ok [jobACompleted]] ∧
    ((pollStep st0C1 (Fetched.ok [jobACompleted])).2 = true ↔
      ((∃ j ∈ (pollStep st0C1 (Fetched.ok [jobACompleted])).1.jobs,
          j.status = Status.pending ∨ j.status = Status.running) ∨
        (pollStep st0C1 (Fetched.ok [jobACompleted])).1.isPolling = true)) :=
  ⟨by simp [pollRun],
    c5_polling_iff st0C1 [Fetched.ok [jobACompleted]] _ (by simp [pollRun])⟩

/-- Dashboard with job "a" selected and the frame cursor advanced to 5. -/
def stC6 : DashState :=
  { initState with
      jobs := [jobACompleted, jobB]
      selectedJob := some jobACompleted
      results := some resultsA
      currentFrame := 5 }

/-- Claim C6 counterexample: with the cursor at 5, selecting the different job "b"
changes the selection but leaves the cursor at 5 instead of resetting it to 0. -/
theorem c6_counterexample :
    (selectJob stC6 jobB).selectedJob ≠ stC6.selectedJob ∧
    (selectJob stC6 jobB).currentFrame = 5 ∧
    (selectJob stC6 jobB).currentFrame ≠ 0 := by
  decide

/-- Claim C6 (amended): the frame cursor is initialized to 0 at mount only; selecting a
job and replacing the result set through a results-fetch completion both leave the
cursor unchanged — there is no per-selection reset. -/
theorem c6_no_reset (st : DashState) (job : Job) (jobId : String)
    (resp : Fetched ResultSet) :
    initState.currentFrame = 0 ∧
    (selectJob st job).currentFrame = st.currentFrame ∧
    (loadResults st jobId resp).currentFrame = st.currentFrame := by
  refine ⟨rfl, rfl, ?_⟩
  cases resp <;> rfl

/-- Claim C7: a failed fetchJobs — whether a non-success HTTP response or a thrown
network error — leaves the whole dashboard state unchanged (job list, selected job and
result set included) and issues no results fetch. -/
theorem c7_error_keeps_state (st : DashState) :
    loadJobs st Fetched.httpError = (st, []) ∧
    loadJobs st Fetched.networkError = (st, []) :=
  ⟨rfl, rfl⟩

/-- Claim C8: clicking the plot point for a frame f present in the PCA data sets the
dashboard cursor to f; the viewer's sync effect (when f is a loadable frame, playback
is stopped, the plugin is up and a trajectory is loaded) brings the viewer's displayed
frame to f; and the plot's highlighted points are exactly those whose frame equals f. -/
theorem c8_round_trip (st : DashState) (vs : ViewerState) (ev : ClickEvent)
    (p : PCAPoint) (rest : List PCAPoint) (pcaData : List PCAPoint)
    (hev : ev.points = p :: rest)
    (hmem : p ∈ pcaData)
    (hplay : vs.isPlaying = false)
    (hplug : vs.hasPlugin = true)
    (htraj : vs.hasTrajectory = true)
    (htot : p.frame < vs.frameInfo.total) :
    (onPlotClick st ev).currentFrame = p.frame ∧
    (syncViewerFrame vs (onPlotClick st ev).currentFrame).1.frameInfo.current = p.frame ∧
    highlighted pcaData (onPlotClick st ev).currentFrame =
      pcaData.filter (fun q => q.frame == p.frame) := by
  have hclick : (onPlotClick st ev).currentFrame = p.frame := by
    simp [onPlotClick, handlePointClick, hev, handlePCAPointClick]
  refine ⟨hclick, ?_, by rw [hclick]; rfl⟩
  rw [hclick]
  unfold syncViewerFrame
  by_cases hcur : p.frame = vs.frameInfo.current
  · rw [if_neg]
    · exact hcur.symm
    · intro hcontra
      exact hcontra.1 hcur
  · rw [if_pos ⟨hcur, hplay⟩]
    unfold goToFrame
    rw [if_neg]
    · rw [if_pos htraj]
      simp only []
      omega
    · push_neg
      refine ⟨by simp [hplug], by omega, by omega⟩

/-- The PCA point for frame 0 of the witness data. -/
def pW0 : PCAPoint :=
  { frame := 0, pc1 := 1, pc2 := 2, pc3 := 0, timeTenthsNs := 0, cluster := none }

/-- The PCA point for frame 1 of the witness data (the clicked one). -/
def pW1 : PCAPoint :=
  { frame := 1, pc1 := 3, pc2 := 1, pc3 := 0, timeTenthsNs := 1, cluster := none }

/-- Two-frame PCA data set for the witness. -/
def pcaW : List PCAPoint := [pW0, pW1]

/-- Click event on the point for frame 1. -/
def evW : ClickEvent := { points := [pW1] }

/-- Viewer with a matching two-frame trajectory loaded, at rest at frame 0. -/
def vsW : ViewerState :=
  { hasPlugin := true
    hasTrajectory := true
    isPlaying := false
    frameInfo := { current := 0, total := 2, timeTenthsNs := 0 } }

/-- Claim C8 witness: clicking frame 1 of the two-point data set drives cursor, viewer
and highlight to frame 1. -/
theorem c8_witness :
    (evW.points = pW1 :: [] ∧ pW1 ∈ pcaW ∧ vsW.isPlaying = false ∧
      vsW.hasPlugin = true ∧ vsW.hasTrajectory = true ∧
      pW1.frame < vsW.frameInfo.total) ∧
    ((onPlotClick initState evW).currentFrame = pW1.frame ∧
      (syncViewerFrame vsW (onPlotClick initState evW).currentFrame).1.frameInfo.current =
        pW1.frame ∧
      highlighted pcaW (onPlotClick initState evW).currentFrame =
        pcaW.filter (fun q => q.frame == pW1.frame)) :=
  ⟨⟨rfl, by decide, rfl, rfl, rfl, by decide⟩,
    c8_round_trip initState vsW evW pW1 [] pcaW rfl (by decide) rfl rfl rfl (by decide)⟩

/-- Claim C9: when a successful fetchJobs returns a list with no entry matching the
selected job's id, the job list is replaced by the new list while the selected-job
snapshot, the result set and every other piece of state stay unchanged, and no
results fetch is issued. -/
theorem c9_selected_absent (st : DashState) (jobsData : List Job) (sel : Job)
    (hsel : st.selectedJob = some sel)
    (habs : jobsData.find? (fun j => j.id == sel.id) = none) :
    loadJobs st (Fetched.ok jobsData) = ({ st with jobs := jobsData }, []) := by
  simp only [loadJobs, hsel, habs]

/-- Dashboard with job "a" running and selected and a result set loaded. -/
def stC9 : DashState :=
  { initState with
      jobs := [jobARunning]
      selectedJob := some jobARunning
      results := some resultsA }

/-- Claim C9 witness: a new list containing only job "b" replaces the list but keeps
the selected snapshot of job "a" and the loaded results. -/
theorem c9_witness :
    stC9.selectedJob = some jobARunning ∧
    [jobB].find? (fun j => j.id == jobARunning.id) = none ∧
    loadJobs stC9 (Fetched.ok [jobB]) = ({ stC9 with jobs := [jobB] }, []) :=
  ⟨by decide, by decide,
    c9_selected_absent stC9 [jobB] jobARunning (by decide) (by decide)⟩

/-- Claim C10: selecting a different job changes only the selection — the previously
loaded ResultSet survives, the PCA data handed to the visualization tab is unchanged,
and among the modelled operations only a results-fetch completion ever replaces the
results state (job-list polls and pipeline submissions never touch it). -/
theorem c10_select_keeps_results (st : DashState) (job : Job) :
    (selectJob st job).selectedJob = some job ∧
    (selectJob st job).results = st.results ∧
    vizPcaData (selectJob st job) = vizPcaData st ∧
    (∀ resp : Fetched (List Job), (loadJobs st resp).1.results = st.results) ∧
    (∀ resp : Fetched Job, (submitClick st resp).1.results = st.results) := by
  refine ⟨rfl, rfl, rfl, ?_, ?_⟩
  · intro resp
    cases resp with
    | ok jobsData =>
        cases hsel : st.selectedJob with
        | none => simp [loadJobs, hsel]
        | some sel =>
            cases hupd : jobsData.find? (fun j => j.id == sel.id) with
            | none => simp [loadJobs, hsel, hupd]
            | some updated =>
                by_cases h : (updated.status == Status.completed && updated.results.isSome) = true
                · simp [loadJobs, hsel, hupd, h]
                · simp [loadJobs, hsel, hupd, h]
    | httpError => rfl
    | networkError => rfl
  · intro resp
    unfold submitClick
    by_cases h : submitDisabled st.pipelineConfig = true
    · rw [if_pos h]
    · rw [if_neg h]
      cases resp <;> rfl

end Antares
